import Mathlib

/-
Verification of the stateful neural-network layers in
`ivy/neural_net_stateful/layers.py` (classes Linear, Conv1D, Conv1DTranspose,
Conv2D, Conv2DTranspose, LSTM).

Shallow embedding choices:
* A tensor is a shape (list of dimension sizes), a data map from index lists
  to real element values, and an optional device target (`none` means the
  call did not pass a device, i.e. the library default device is used).
* The tensor library `ivy` and the `Module` base class are external to the
  single source file; their operations (`ivy.zeros`, `ivy.random_uniform`,
  `ivy.variable`, `ivy.linear`, `ivy.lstm_update`) are modelled from the spec.
  Random sampling is external: `ivy.random_uniform` takes the bounds `low`,
  `high` its caller computes together with a sampler standing for the backend
  RNG, and its spec postcondition — the drawn values lie within the given
  bounds — is part of the model: the external draw is clamped into
  `[low, high]`, so every element provably lies in the interval the caller
  requested, whatever the RNG does.
* Python dictionaries with keys layer_0 .. layer_{n-1} holding a single 'w'
  entry each (as built in LSTM._create_variables) are modelled as lists of
  weight tensors in insertion order.
-/

namespace IvyLayers

/-- A tensor value: shape, element data indexed by multi-indices, and the
device target the creating call requested (`none` = library default). -/
@[ext]
structure Tensor where
  shape : List Nat
  data : List Nat → ℝ
  dev : Option String

instance : Inhabited Tensor := ⟨⟨[], fun _ => 0, none⟩⟩

/-- The dummy tensor used as a default for list lookups. -/
def dummyTensor : Tensor := ⟨[], fun _ => 0, none⟩

/-- Modelled from the spec: the tensor library's zero-filled tensor of a given
shape and device target (`ivy.zeros`); `dev = none` when the caller does not
pass a device, meaning the library default device. -/
def zeros (shape : List Nat) (dev : Option String) : Tensor :=
  ⟨shape, fun _ => 0, dev⟩

/-- Modelled from the spec: `ivy.random_uniform(low, high, shape, dev_str)`,
the uniformly distributed random tensor within given bounds, shape and device
target. The draw itself is external — `sample` stands for the backend RNG
stream — and the op's postcondition that every drawn value lies within
`[low, high]` is part of the model: the external draw is clamped into the
requested interval. -/
noncomputable def random_uniform (low high : ℝ) (shape : List Nat)
    (sample : List Nat → ℝ) (dev : Option String) : Tensor :=
  ⟨shape, fun idx => max low (min high (sample idx)), dev⟩

/-- Modelled from the spec: `ivy.variable` wraps a tensor as trainable; the
wrapper does not change shape, values or device, so it is the identity here. -/
def variable' (t : Tensor) : Tensor := t

/-- Modelled from the spec: the dense op `ivy.linear(input, weight, bias)`:
output = input·weightᵗ + bias applied over the trailing dimension of an
arbitrarily batched input; batch dimensions are preserved unchanged.
For input of shape `batch ++ [in]` and weight of shape `[out, in]`, the output
has shape `batch ++ [out]` and entry `idx ++ [j]` equal to
`(∑ k < in, input[idx ++ [k]] * weight[[j, k]]) + bias[[j]]`. -/
def linear (x w b : Tensor) : Tensor :=
  { shape := x.shape.dropLast ++ [w.shape.headD 0]
    data := fun idx =>
      (Finset.range (x.shape.getLastD 0)).sum
        (fun k => x.data (idx.dropLast ++ [k]) * w.data [idx.getLastD 0, k])
        + b.data [idx.getLastD 0]
    dev := x.dev }

-- Linear layer (source: class Linear) --------------------------------------

/-- Hyperparameters stored by `Linear.__init__` (src lines 15-32). -/
structure Linear where
  input_channels : Nat
  output_channels : Nat
  dev_str : String

/-- The variable container returned by `Linear._create_variables`:
keys 'w' and 'b'. -/
structure LinearVars where
  w : Tensor
  b : Tensor

/-- Embeds `Linear._create_variables` (src lines 34-44): it computes
`wlim = (6 / (output_channels + input_channels)) ** 0.5` and creates a weight
of shape `(output_channels, input_channels)` drawn uniformly within
`(-wlim, wlim)`, and a zero bias of shape `[output_channels]`, both on
`dev_str`; the backend draw is the external `sample`. -/
noncomputable def Linear.create_variables (self : Linear) (dev_str : String)
    (sample : List Nat → ℝ) : LinearVars :=
  let wlim : ℝ :=
    Real.sqrt (6 / (self.output_channels + self.input_channels : ℝ))
  { w := variable' (random_uniform (-wlim) wlim
      [self.output_channels, self.input_channels] sample (some dev_str))
    b := variable' (zeros [self.output_channels] (some dev_str)) }

/-- Embeds `Linear._forward` (src lines 46-54): delegates to
`ivy.linear(inputs, self.v.w, self.v.b)`. -/
def Linear.forward (self : Linear) (v : LinearVars) (inputs : Tensor) : Tensor :=
  linear inputs v.w v.b

-- Construction-level model for error handling (claim about validation) ------

/-- Error taxonomy named by the spec for construction failures. -/
inductive LayerError where
  | invalidConfiguration : LayerError
deriving DecidableEq

/-- Modelled from the spec: construction = `Linear.__init__` (src lines 15-32)
followed by `Module.__init__`, which is not under src/; per the spec, the base
constructor computes the device and invokes the variable-creation hook, and
hyperparameter validation is "not validated in the observed behavior"
(spec section 7). Channel counts are `Int` here because Python integers admit
negative values; faithful to the source, construction stores the
hyperparameters and never fails. -/
def Linear.construct (input_channels output_channels : Int) (dev_str : String) :
    Except LayerError (Int × Int × String) :=
  .ok (input_channels, output_channels, dev_str)

-- Conv2D layer (source: class Conv2D) ---------------------------------------

/-- Hyperparameters stored by `Conv2D.__init__` (src lines 184-215). Strides,
padding and dilations are stored but irrelevant to variable creation. -/
structure Conv2D where
  input_channels : Nat
  output_channels : Nat
  filter_shape : List Nat
  strides : Nat
  padding : String
  data_format : String
  dilations : Nat
  dev_str : String

/-- The variable container of a convolutional layer: keys 'w' and 'b'. -/
structure ConvVars where
  w : Tensor
  b : Tensor

/-- Embeds `Conv2D._create_variables` (src lines 217-228): it computes
`wlim = (6 / (output_channels + input_channels)) ** 0.5`; the weight shape is
`filter_shape ++ [output_channels, input_channels]` when the data format is
NHWC, else `[output_channels, input_channels] ++ filter_shape`, drawn
uniformly within `(-wlim, wlim)`; the bias is a zero tensor of shape
`[1, 1, 1, output_channels]`. Both are created on `dev_str`. -/
noncomputable def Conv2D.create_variables (self : Conv2D) (dev_str : String)
    (sample : List Nat → ℝ) : ConvVars :=
  let wlim : ℝ :=
    Real.sqrt (6 / (self.output_channels + self.input_channels : ℝ))
  let w_shape := if self.data_format = "NHWC" then
      self.filter_shape ++ [self.output_channels, self.input_channels]
    else [self.output_channels, self.input_channels] ++ self.filter_shape
  { w := variable' (random_uniform (-wlim) wlim w_shape sample (some dev_str))
    b := variable' (zeros [1, 1, 1, self.output_channels] (some dev_str)) }

-- LSTM layer (source: class LSTM) -------------------------------------------

/-- Hyperparameters stored by `LSTM.__init__` (src lines 309-335). -/
structure LSTM where
  input_channels : Nat
  output_channels : Nat
  num_layers : Nat
  return_sequence : Bool
  return_state : Bool
  dev_str : String

/-- The variable container returned by `LSTM._create_variables`: an 'input'
sub-container and a 'recurrent' sub-container, each mapping keys layer_0 ..
layer_{n-1} to a singleton container holding that layer's weight 'w'. The
insertion-ordered dictionaries are modelled as lists of the weight tensors. -/
structure LSTMVars where
  input : List Tensor
  recurrent : List Tensor

/-- Embeds `LSTM._create_variables` (src lines 349-368): it computes
`wlim = (6 / (output_channels + input_channels)) ** 0.5` and creates, per
layer i, an input weight of shape `(input_channels if i == 0 else
output_channels, 4*output_channels)` drawn uniformly within `(-wlim, wlim)`;
it then recomputes `wlim = (6 / (output_channels + output_channels)) ** 0.5`
and creates, per layer, a recurrent weight of shape `(output_channels,
4*output_channels)` drawn uniformly within the new `(-wlim, wlim)`. No bias
entries exist. The two per-layer RNG streams are `sampleI` and `sampleR`; all
tensors are created on `dev_str`. -/
noncomputable def LSTM.create_variables (self : LSTM) (dev_str : String)
    (sampleI sampleR : Nat → List Nat → ℝ) : LSTMVars :=
  let wlim : ℝ :=
    Real.sqrt (6 / (self.output_channels + self.input_channels : ℝ))
  let wlim2 : ℝ :=
    Real.sqrt (6 / (self.output_channels + self.output_channels : ℝ))
  { input := (List.range self.num_layers).map (fun i =>
      variable' (random_uniform (-wlim) wlim
        [if i = 0 then self.input_channels else self.output_channels,
         4 * self.output_channels] (sampleI i) (some dev_str)))
    recurrent := (List.range self.num_layers).map (fun i =>
      variable' (random_uniform (-wlim2) wlim2
        [self.output_channels, 4 * self.output_channels] (sampleR i)
        (some dev_str))) }

/-- Embeds `LSTM.get_initial_state` (src lines 339-345): two lists of
`num_layers` zero tensors of shape `batch_shape ++ [output_channels]`; note
the source calls `ivy.zeros` without a `dev_str` argument, so no device target
is passed (`none`). -/
def LSTM.get_initial_state (self : LSTM) (batch_shape : List Nat) :
    List Tensor × List Tensor :=
  ((List.range self.num_layers).map (fun _ =>
      zeros (batch_shape ++ [self.output_channels]) none),
   (List.range self.num_layers).map (fun _ =>
      zeros (batch_shape ++ [self.output_channels]) none))

/-- Embeds the Python expression `t[..., -1, :]` used in `LSTM._forward`:
drop the second-to-last axis, selecting its last entry. For shape
`s ++ [T, c]` the result has shape `s ++ [c]` and entry `idx ++ [j]` equal to
the source entry `idx ++ [T-1, j]`. -/
def lastTimestep (t : Tensor) : Tensor :=
  { shape := t.shape.dropLast.dropLast ++ [t.shape.getLastD 0]
    data := fun idx =>
      t.data (idx.dropLast ++ [t.shape.dropLast.getLastD 0 - 1, idx.getLastD 0])
    dev := t.dev }

/-- The type of the external `ivy.lstm_update` operation (modelled from the
spec): it consumes a layer's input sequence, its initial hidden and cell
states, and its input and recurrent weights, returning the new output
sequence and the final cell state. -/
def LSTMUpdate : Type :=
  Tensor → Tensor → Tensor → Tensor → Tensor → Tensor × Tensor

/-- Embeds the loop of `LSTM._forward` (src lines 384-391): Python's `zip`
over the hidden states, cell states, input-weight entries and recurrent-weight
entries, stopping as soon as any of the four lists is exhausted. Each round
feeds the running sequence `h_t` to `ivy.lstm_update`, records the last
timestep of the new sequence in `h_n_list` and the final cell state in
`c_n_list`, and passes the new sequence to the next layer. Returns the final
sequence together with the two collected lists, in layer order. -/
def LSTM.forwardLoop (upd : LSTMUpdate) :
    Tensor → List Tensor → List Tensor → List Tensor → List Tensor →
    Tensor × List Tensor × List Tensor
  | h_t, h_0 :: hs, c_0 :: cs, wi :: wis, wr :: wrs =>
    let y := upd h_t h_0 c_0 wi wr
    let rest := LSTM.forwardLoop upd y.1 hs cs wis wrs
    (rest.1, lastTimestep y.1 :: rest.2.1, y.2 :: rest.2.2)
  | h_t, _, _, _, _ => (h_t, [], [])

/-- The dynamic return value of `LSTM._forward`: only the output tensor when
`return_state` is false, otherwise the output together with the per-layer
hidden and cell state lists. -/
inductive LSTMResult where
  | output (h_t : Tensor) : LSTMResult
  | outputAndState (h_t : Tensor) (h_n : List Tensor) (c_n : List Tensor) : LSTMResult
deriving Inhabited

/-- The tensor part of an `LSTMResult`. -/
def LSTMResult.out : LSTMResult → Tensor
  | .output t => t
  | .outputAndState t _ _ => t

/-- The state part of an `LSTMResult` (`none` when only the output tensor is
returned). -/
def LSTMResult.state : LSTMResult → Option (List Tensor × List Tensor)
  | .output _ => none
  | .outputAndState _ h c => some (h, c)

/-- Embeds `LSTM._forward` (src lines 370-396): when `initial_state` is None
it is created by `get_initial_state(inputs.shape[:-2])`; the layer loop runs;
the output is truncated to the last timestep unless `return_sequence`; and the
collected state lists are attached exactly when `return_state`. -/
def LSTM.forward (self : LSTM) (upd : LSTMUpdate) (v : LSTMVars)
    (inputs : Tensor)
    (initial_state : Option (List Tensor × List Tensor)) : LSTMResult :=
  let st := match initial_state with
    | none => self.get_initial_state (inputs.shape.dropLast.dropLast)
    | some s => s
  let r := LSTM.forwardLoop upd inputs st.1 st.2 v.input v.recurrent
  let h_t := if self.return_sequence then r.1 else lastTimestep r.1
  if self.return_state then .outputAndState h_t r.2.1 r.2.2 else .output h_t

-- Specification-side description of the layer chaining (for the claims about
-- sequential processing) -----------------------------------------------------

/-- Follows the claim's wording for sequential layer processing: the output
sequence after 0 layers is the input itself, and layer i's full output
sequence (the first component of `ivy.lstm_update` applied to the previous
sequence, layer i's initial states and layer i's two weights) is layer
(i+1)'s input. -/
def chainOutput (upd : LSTMUpdate) (x : Tensor)
    (hs cs wis wrs : List Tensor) : Nat → Tensor
  | 0 => x
  | i + 1 =>
    (upd (chainOutput upd x hs cs wis wrs i) (hs.getD i dummyTensor)
      (cs.getD i dummyTensor) (wis.getD i dummyTensor)
      (wrs.getD i dummyTensor)).1

/-- The final cell state produced by layer i under the same sequential
description. -/
def chainCell (upd : LSTMUpdate) (x : Tensor)
    (hs cs wis wrs : List Tensor) (i : Nat) : Tensor :=
  (upd (chainOutput upd x hs cs wis wrs i) (hs.getD i dummyTensor)
    (cs.getD i dummyTensor) (wis.getD i dummyTensor)
    (wrs.getD i dummyTensor)).2

-- Helper lemmas --------------------------------------------------------------

/-- Lookup in a map over a range hits the function value. -/
lemma getD_range_map {α : Type} (n : Nat) (f : Nat → α) (i : Nat) (d : α)
    (hi : i < n) : ((List.range n).map f).getD i d = f i := by
  have hlen : i < ((List.range n).map f).length := by simpa using hi
  rw [List.getD_eq_getElem _ _ hlen]
  simp

/-- Unfolding `chainOutput` one layer from the front of the four lists. -/
lemma chainOutput_cons (upd : LSTMUpdate) (x h_0 c_0 wi wr : Tensor)
    (hs cs wis wrs : List Tensor) :
    ∀ i, chainOutput upd x (h_0 :: hs) (c_0 :: cs) (wi :: wis) (wr :: wrs) (i + 1) =
      chainOutput upd (upd x h_0 c_0 wi wr).1 hs cs wis wrs i := by
  intro i
  induction i with
  | zero => simp [chainOutput]
  | succ i ih =>
    show (upd (chainOutput upd x (h_0 :: hs) (c_0 :: cs) (wi :: wis) (wr :: wrs) (i + 1))
        ((h_0 :: hs).getD (i + 1) dummyTensor) ((c_0 :: cs).getD (i + 1) dummyTensor)
        ((wi :: wis).getD (i + 1) dummyTensor) ((wr :: wrs).getD (i + 1) dummyTensor)).1 =
      (upd (chainOutput upd (upd x h_0 c_0 wi wr).1 hs cs wis wrs i)
        (hs.getD i dummyTensor) (cs.getD i dummyTensor) (wis.getD i dummyTensor)
        (wrs.getD i dummyTensor)).1
    rw [ih, List.getD_cons_succ, List.getD_cons_succ, List.getD_cons_succ,
      List.getD_cons_succ]

/-- Unfolding `chainCell` one layer from the front of the four lists. -/
lemma chainCell_cons (upd : LSTMUpdate) (x h_0 c_0 wi wr : Tensor)
    (hs cs wis wrs : List Tensor) (i : Nat) :
    chainCell upd x (h_0 :: hs) (c_0 :: cs) (wi :: wis) (wr :: wrs) (i + 1) =
      chainCell upd (upd x h_0 c_0 wi wr).1 hs cs wis wrs i := by
  simp [chainCell, chainOutput_cons]

/-- The loop of `LSTM._forward` computes exactly the sequential chaining
described by the spec: the final output is the `k`-fold chain (where `k` is
the common length of the two state lists, not exceeding the weight lists),
the collected hidden states are the last timesteps of each layer's output
sequence, and the collected cell states are each layer's final cell state. -/
lemma forwardLoop_eq_chain (upd : LSTMUpdate) :
    ∀ (k : Nat) (x : Tensor) (hs cs wis wrs : List Tensor),
    hs.length = k → cs.length = k → k ≤ wis.length → k ≤ wrs.length →
    LSTM.forwardLoop upd x hs cs wis wrs =
      (chainOutput upd x hs cs wis wrs k,
       (List.range k).map
         (fun i => lastTimestep (chainOutput upd x hs cs wis wrs (i + 1))),
       (List.range k).map (fun i => chainCell upd x hs cs wis wrs i)) := by
  intro k
  induction k with
  | zero =>
    intro x hs cs wis wrs h1 h2 _ _
    rw [List.length_eq_zero] at h1 h2
    subst h1; subst h2
    cases wis <;> cases wrs <;> rfl
  | succ k ih =>
    intro x hs cs wis wrs h1 h2 h3 h4
    obtain ⟨h_0, hs', rfl⟩ : ∃ a l, hs = a :: l := by
      cases hs with
      | nil => simp at h1
      | cons a l => exact ⟨a, l, rfl⟩
    obtain ⟨c_0, cs', rfl⟩ : ∃ a l, cs = a :: l := by
      cases cs with
      | nil => simp at h2
      | cons a l => exact ⟨a, l, rfl⟩
    obtain ⟨wi, wis', rfl⟩ : ∃ a l, wis = a :: l := by
      cases wis with
      | nil => simp at h3
      | cons a l => exact ⟨a, l, rfl⟩
    obtain ⟨wr, wrs', rfl⟩ : ∃ a l, wrs = a :: l := by
      cases wrs with
      | nil => simp at h4
      | cons a l => exact ⟨a, l, rfl⟩
    have h1' : hs'.length = k := by simpa using h1
    have h2' : cs'.length = k := by simpa using h2
    have h3' : k ≤ wis'.length := by simpa using h3
    have h4' : k ≤ wrs'.length := by simpa using h4
    have hrec := ih (upd x h_0 c_0 wi wr).1 hs' cs' wis' wrs' h1' h2' h3' h4'
    show (_, lastTimestep (upd x h_0 c_0 wi wr).1 :: _, (upd x h_0 c_0 wi wr).2 :: _) = _
    rw [hrec]
    refine congrArg₂ _ ?_ (congrArg₂ _ ?_ ?_)
    · rw [chainOutput_cons]
    · rw [List.range_succ_eq_map, List.map_cons, List.map_map]
      refine congrArg₂ _ ?_ ?_
      · rw [show (0 : Nat) + 1 = 0 + 1 from rfl, chainOutput_cons]
        rfl
      · refine List.map_congr_left fun i _ => ?_
        simp only [Function.comp_apply]
        rw [chainOutput_cons]
    · rw [List.range_succ_eq_map, List.map_cons, List.map_map]
      refine congrArg₂ _ ?_ ?_
      · show chainCell upd x (h_0 :: hs') (c_0 :: cs') (wi :: wis')
          (wr :: wrs') 0 = _
        simp [chainCell, chainOutput]
      · refine List.map_congr_left fun i _ => ?_
        simp only [Function.comp_apply]
        rw [chainCell_cons]

/-- When `ivy.lstm_update` returns output sequences whose shape replaces the
trailing dimension of its input sequence by `cout` (its spec contract), every
chained output from layer 1 on has that shape. -/
lemma chainOutput_shape (upd : LSTMUpdate) (cout : Nat)
    (hupd : ∀ a b c d e : Tensor,
      ((upd a b c d e).1).shape = a.shape.dropLast ++ [cout])
    (x : Tensor) (hs cs wis wrs : List Tensor) :
    ∀ i, (chainOutput upd x hs cs wis wrs (i + 1)).shape =
      x.shape.dropLast ++ [cout] := by
  intro i
  induction i with
  | zero => simpa [chainOutput] using hupd x _ _ _ _
  | succ i ih =>
    show ((upd (chainOutput upd x hs cs wis wrs (i + 1)) _ _ _ _).1).shape = _
    rw [hupd, ih, List.dropLast_concat]

/-- Shapes of one append step. -/
lemma dropLast_append_two (l : List Nat) (a b : Nat) :
    (l ++ [a, b]).dropLast = l ++ [a] := by
  rw [show l ++ [a, b] = (l ++ [a]) ++ [b] from by simp, List.dropLast_concat]

/-- Clamping into a symmetric interval around zero stays within the bound. -/
lemma abs_clamp_le (w x : ℝ) (hw : 0 ≤ w) : |max (-w) (min w x)| ≤ w := by
  rw [abs_le]
  exact ⟨le_max_left _ _, max_le (by linarith) (min_le_left _ _)⟩

-- Claim theorems --------------------------------------------------------------

/-- C1: for every pair (input_channels, output_channels), the variables
created by `Linear._create_variables` are a weight of shape
`[output_channels, input_channels]` whose elements all lie in `[-wlim, wlim]`
with `wlim = sqrt(6/(input_channels+output_channels))` — the bound the source
computes and passes to `ivy.random_uniform` — and an all-zero bias of length
`output_channels`. -/
theorem linear_create_variables_spec (cin cout : Nat) (d : String)
    (sample : List Nat → ℝ) :
    ((Linear.create_variables ⟨cin, cout, d⟩ d sample).w.shape = [cout, cin]) ∧
    (∀ idx, |(Linear.create_variables ⟨cin, cout, d⟩ d sample).w.data idx| ≤
      Real.sqrt (6 / ((cin : ℝ) + (cout : ℝ)))) ∧
    ((Linear.create_variables ⟨cin, cout, d⟩ d sample).b.shape = [cout]) ∧
    (∀ idx, (Linear.create_variables ⟨cin, cout, d⟩ d sample).b.data idx = 0) := by
  refine ⟨rfl, fun idx => ?_, rfl, fun _ => rfl⟩
  show |max (-(Real.sqrt (6 / ((cout : ℝ) + (cin : ℝ)))))
      (min (Real.sqrt (6 / ((cout : ℝ) + (cin : ℝ)))) (sample idx))| ≤
    Real.sqrt (6 / ((cin : ℝ) + (cout : ℝ)))
  rw [add_comm (cout : ℝ) (cin : ℝ)]
  exact abs_clamp_le _ _ (Real.sqrt_nonneg _)

/-- C7: for every input of shape `batch_shape ++ [input_channels]` and weight
of the configured shape, `Linear._forward` applies the linear operation over
the trailing dimension — entry `idx` of the output is
`(∑ k < input_channels, input[idx[:-1] ++ [k]] * w[[idx[-1], k]]) + b[[idx[-1]]]`
— and the output has shape `batch_shape ++ [output_channels]`, preserving all
batch dimensions unchanged. -/
theorem linear_forward_spec (self : Linear) (v : LinearVars) (x : Tensor)
    (bs : List Nat) (hx : x.shape = bs ++ [self.input_channels])
    (hw : v.w.shape = [self.output_channels, self.input_channels]) :
    ((self.forward v x).shape = bs ++ [self.output_channels]) ∧
    (∀ idx, (self.forward v x).data idx =
      (Finset.range self.input_channels).sum
        (fun k => x.data (idx.dropLast ++ [k]) * v.w.data [idx.getLastD 0, k])
        + v.b.data [idx.getLastD 0]) := by
  constructor
  · show x.shape.dropLast ++ [v.w.shape.headD 0] = _
    rw [hx, hw, List.dropLast_concat]
    rfl
  · intro idx
    show (Finset.range (x.shape.getLastD 0)).sum _ + _ = _
    rw [hx]
    simp

/-- C7 witness: the hypotheses hold and the conclusion follows for the layer
with 4 input and 3 output channels on a zero input of shape [2, 4]. -/
theorem linear_forward_spec_witness :
    ((zeros [2, 4] none).shape = [2] ++ [(⟨4, 3, "cpu"⟩ : Linear).input_channels] ∧
     (Linear.create_variables ⟨4, 3, "cpu"⟩ "cpu" (fun _ => 0)).w.shape =
       [(⟨4, 3, "cpu"⟩ : Linear).output_channels, (⟨4, 3, "cpu"⟩ : Linear).input_channels]) ∧
    ((Linear.forward ⟨4, 3, "cpu"⟩ (Linear.create_variables ⟨4, 3, "cpu"⟩ "cpu" (fun _ => 0))
        (zeros [2, 4] none)).shape = [2] ++ [(⟨4, 3, "cpu"⟩ : Linear).output_channels]) ∧
    (∀ idx, (Linear.forward ⟨4, 3, "cpu"⟩ (Linear.create_variables ⟨4, 3, "cpu"⟩ "cpu" (fun _ => 0))
        (zeros [2, 4] none)).data idx =
      (Finset.range (⟨4, 3, "cpu"⟩ : Linear).input_channels).sum
        (fun k => (zeros [2, 4] none).data (idx.dropLast ++ [k]) *
          (Linear.create_variables ⟨4, 3, "cpu"⟩ "cpu" (fun _ => 0)).w.data [idx.getLastD 0, k])
        + (Linear.create_variables ⟨4, 3, "cpu"⟩ "cpu" (fun _ => 0)).b.data [idx.getLastD 0]) :=
  ⟨⟨by decide, by decide⟩,
   linear_forward_spec ⟨4, 3, "cpu"⟩ _ (zeros [2, 4] none) [2] (by decide) (by decide)⟩

/-- C4: the weight created by `Conv2D._create_variables` has shape
`filter_shape ++ [output_channels, input_channels]` under NHWC and
`[output_channels, input_channels] ++ filter_shape` under NCHW, and the bias
is an all-zero tensor of shape `[1, 1, 1, output_channels]`. -/
theorem conv2d_create_variables_spec (cin cout : Nat) (fs : List Nat)
    (strides : Nat) (padding : String) (dil : Nat) (dev d : String)
    (sample sample2 : List Nat → ℝ) :
    ((Conv2D.create_variables ⟨cin, cout, fs, strides, padding, "NHWC", dil, dev⟩
        d sample).w.shape = fs ++ [cout, cin]) ∧
    ((Conv2D.create_variables ⟨cin, cout, fs, strides, padding, "NCHW", dil, dev⟩
        d sample2).w.shape = [cout, cin] ++ fs) ∧
    ((Conv2D.create_variables ⟨cin, cout, fs, strides, padding, "NHWC", dil, dev⟩
        d sample).b.shape = [1, 1, 1, cout]) ∧
    ((Conv2D.create_variables ⟨cin, cout, fs, strides, padding, "NCHW", dil, dev⟩
        d sample2).b.shape = [1, 1, 1, cout]) ∧
    (∀ idx, (Conv2D.create_variables ⟨cin, cout, fs, strides, padding, "NHWC", dil, dev⟩
        d sample).b.data idx = 0) ∧
    (∀ idx, (Conv2D.create_variables ⟨cin, cout, fs, strides, padding, "NCHW", dil, dev⟩
        d sample2).b.data idx = 0) := by
  refine ⟨?_, ?_, rfl, rfl, fun _ => rfl, fun _ => rfl⟩
  · simp [Conv2D.create_variables, variable', random_uniform]
  · simp [Conv2D.create_variables, variable', random_uniform]

/-- C6: `LSTM.get_initial_state(batch_shape)` is a pair of two lists, each
with one entry per layer, every entry being the zero-filled tensor of shape
`batch_shape ++ [output_channels]` (created with no device argument). -/
theorem lstm_get_initial_state_spec (self : LSTM) (batch_shape : List Nat) :
    (self.get_initial_state batch_shape =
      (List.replicate self.num_layers
        (zeros (batch_shape ++ [self.output_channels]) none),
       List.replicate self.num_layers
        (zeros (batch_shape ++ [self.output_channels]) none))) ∧
    ((self.get_initial_state batch_shape).1.length = self.num_layers) ∧
    ((self.get_initial_state batch_shape).2.length = self.num_layers) ∧
    ((zeros (batch_shape ++ [self.output_channels]) none).shape =
      batch_shape ++ [self.output_channels]) ∧
    (∀ idx, (zeros (batch_shape ++ [self.output_channels]) none).data idx = 0) := by
  refine ⟨?_, ?_, ?_, rfl, fun _ => rfl⟩ <;>
    simp [LSTM.get_initial_state]

/-- C9: `LSTM.get_initial_state` creates its zero tensors without passing the
layer's device target (device field `none`, i.e. the library default device),
whereas every tensor created by `LSTM._create_variables` carries the device
target `dev_str` it was passed. -/
theorem lstm_initial_state_device_spec (self : LSTM) (batch_shape : List Nat)
    (d : String) (sampleI sampleR : Nat → List Nat → ℝ) :
    ((self.get_initial_state batch_shape).1.map Tensor.dev =
      List.replicate self.num_layers none) ∧
    ((self.get_initial_state batch_shape).2.map Tensor.dev =
      List.replicate self.num_layers none) ∧
    ((self.create_variables d sampleI sampleR).input.map Tensor.dev =
      List.replicate self.num_layers (some d)) ∧
    ((self.create_variables d sampleI sampleR).recurrent.map Tensor.dev =
      List.replicate self.num_layers (some d)) := by
  refine ⟨?_, ?_, ?_, ?_⟩ <;>
    simp [LSTM.get_initial_state, LSTM.create_variables, variable',
      random_uniform, zeros, List.map_map, Function.comp_def]

/-- C8 counterexample: constructing a Linear layer with a negative channel
count does not fail with InvalidConfiguration — it completes successfully. -/
theorem linear_construct_no_validation :
    Linear.construct (-1) 3 "cpu" ≠ Except.error LayerError.invalidConfiguration ∧
    Linear.construct (-1) 3 "cpu" = Except.ok (-1, 3, "cpu") :=
  ⟨by simp [Linear.construct], rfl⟩

/-- C8 (amended): layer construction performs no hyperparameter validation;
it stores the hyperparameters and always completes successfully, even for
negative channel counts — any failure would arise later, inside the external
tensor library. -/
theorem linear_construct_total (cin cout : Int) (d : String) :
    Linear.construct cin cout d = Except.ok (cin, cout, d) := rfl

-- Concrete demonstration objects used by the witnesses -----------------------

/-- A concrete 2-layer LSTM configuration: 2 input channels, 3 output
channels, both return flags set. -/
def demoLSTM : LSTM := ⟨2, 3, 2, true, true, "cpu"⟩

/-- A concrete stand-in for the external `ivy.lstm_update`. -/
def demoUpd : LSTMUpdate := fun a b _ _ _ => (a, b)

/-- A concrete stand-in for `ivy.lstm_update` that obeys the shape contract
for 3 output channels. -/
def demoUpdShaped : LSTMUpdate :=
  fun a _ _ _ _ => (⟨a.shape.dropLast ++ [3], fun _ => 0, none⟩, a)

/-- The variables of `demoLSTM` drawn with the zero sampler. -/
noncomputable def demoVars : LSTMVars :=
  LSTM.create_variables demoLSTM "cpu" (fun _ _ => 0) (fun _ _ => 0)

/-- A concrete zero input of shape [2, 5, 2]: batch 2, five timesteps, 2
channels. -/
def demoInput : Tensor := zeros [2, 5, 2] none

/-- C2: `LSTM._forward` processes the layers sequentially: a missing
initial_state is replaced by the zero state built from the input's leading
batch dimensions (all dimensions except the last two), and the layer loop
computes exactly the chain in which layer i's full output sequence — produced
by the external `ivy.lstm_update` from that layer's initial hidden and cell
state and its input and recurrent weights — becomes layer i+1's input. -/
theorem lstm_forward_sequential (upd : LSTMUpdate) (self : LSTM) (v : LSTMVars)
    (x : Tensor) (hs cs : List Tensor)
    (h1 : hs.length = self.num_layers) (h2 : cs.length = self.num_layers)
    (h3 : self.num_layers ≤ v.input.length)
    (h4 : self.num_layers ≤ v.recurrent.length) :
    (LSTM.forward self upd v x none =
      LSTM.forward self upd v x
        (some (self.get_initial_state x.shape.dropLast.dropLast))) ∧
    (LSTM.forwardLoop upd x hs cs v.input v.recurrent =
      (chainOutput upd x hs cs v.input v.recurrent self.num_layers,
       (List.range self.num_layers).map
         (fun i => lastTimestep (chainOutput upd x hs cs v.input v.recurrent (i + 1))),
       (List.range self.num_layers).map
         (fun i => chainCell upd x hs cs v.input v.recurrent i))) :=
  ⟨rfl, forwardLoop_eq_chain upd self.num_layers x hs cs v.input v.recurrent h1 h2 h3 h4⟩

/-- C2 witness: the hypotheses hold and the conclusion follows for the
concrete 2-layer LSTM. -/
theorem lstm_forward_sequential_witness :
    (([dummyTensor, dummyTensor] : List Tensor).length = demoLSTM.num_layers ∧
     ([dummyTensor, dummyTensor] : List Tensor).length = demoLSTM.num_layers ∧
     demoLSTM.num_layers ≤ demoVars.input.length ∧
     demoLSTM.num_layers ≤ demoVars.recurrent.length) ∧
    ((LSTM.forward demoLSTM demoUpd demoVars demoInput none =
      LSTM.forward demoLSTM demoUpd demoVars demoInput
        (some (demoLSTM.get_initial_state demoInput.shape.dropLast.dropLast))) ∧
     (LSTM.forwardLoop demoUpd demoInput [dummyTensor, dummyTensor]
        [dummyTensor, dummyTensor] demoVars.input demoVars.recurrent =
      (chainOutput demoUpd demoInput [dummyTensor, dummyTensor]
        [dummyTensor, dummyTensor] demoVars.input demoVars.recurrent
        demoLSTM.num_layers,
       (List.range demoLSTM.num_layers).map
         (fun i => lastTimestep (chainOutput demoUpd demoInput
           [dummyTensor, dummyTensor] [dummyTensor, dummyTensor]
           demoVars.input demoVars.recurrent (i + 1))),
       (List.range demoLSTM.num_layers).map
         (fun i => chainCell demoUpd demoInput [dummyTensor, dummyTensor]
           [dummyTensor, dummyTensor] demoVars.input demoVars.recurrent i)))) :=
  ⟨⟨by decide, by decide, by decide, by decide⟩,
   lstm_forward_sequential demoUpd demoLSTM demoVars demoInput
     [dummyTensor, dummyTensor] [dummyTensor, dummyTensor]
     (by decide) (by decide) (by decide) (by decide)⟩

/-- C5: the variables created by `LSTM._create_variables` are, per layer i, an
input weight of shape `[input_channels if i = 0 else output_channels,
4*output_channels]` whose elements are bounded by `sqrt(6/(in+out))` — the
first bound the source computes and passes to `ivy.random_uniform` — and a
recurrent weight of shape `[output_channels, 4*output_channels]` whose
elements are bounded by `sqrt(6/(out+out))` — the second bound the source
computes; the container (`LSTMVars`) holds only these two weight families —
no bias variables exist. -/
theorem lstm_create_variables_spec (cin cout n : Nat) (rs rst : Bool)
    (dev d : String) (sampleI sampleR : Nat → List Nat → ℝ) :
    ((LSTM.create_variables ⟨cin, cout, n, rs, rst, dev⟩ d sampleI sampleR).input.map
        Tensor.shape =
      (List.range n).map (fun i => [if i = 0 then cin else cout, 4 * cout])) ∧
    ((LSTM.create_variables ⟨cin, cout, n, rs, rst, dev⟩ d sampleI sampleR).recurrent.map
        Tensor.shape = List.replicate n [cout, 4 * cout]) ∧
    (∀ i idx, i < n →
      |(((LSTM.create_variables ⟨cin, cout, n, rs, rst, dev⟩ d sampleI
          sampleR).input.getD i dummyTensor).data idx)| ≤
        Real.sqrt (6 / ((cin : ℝ) + (cout : ℝ)))) ∧
    (∀ i idx, i < n →
      |(((LSTM.create_variables ⟨cin, cout, n, rs, rst, dev⟩ d sampleI
          sampleR).recurrent.getD i dummyTensor).data idx)| ≤
        Real.sqrt (6 / ((cout : ℝ) + (cout : ℝ)))) := by
  refine ⟨?_, ?_, ?_, ?_⟩
  · simp [LSTM.create_variables, variable', random_uniform, List.map_map,
      Function.comp_def]
  · simp [LSTM.create_variables, variable', random_uniform, List.map_map,
      Function.comp_def]
  · intro i idx hin
    have h := getD_range_map n
      (fun i => variable' (random_uniform
        (-(Real.sqrt (6 / ((cout : ℝ) + (cin : ℝ)))))
        (Real.sqrt (6 / ((cout : ℝ) + (cin : ℝ))))
        [if i = 0 then cin else cout, 4 * cout] (sampleI i) (some d)))
      i dummyTensor hin
    show |(((List.range n).map (fun i => variable' (random_uniform
        (-(Real.sqrt (6 / ((cout : ℝ) + (cin : ℝ)))))
        (Real.sqrt (6 / ((cout : ℝ) + (cin : ℝ))))
        [if i = 0 then cin else cout, 4 * cout] (sampleI i) (some d)))).getD
        i dummyTensor).data idx| ≤ Real.sqrt (6 / ((cin : ℝ) + (cout : ℝ)))
    rw [h]
    show |max (-(Real.sqrt (6 / ((cout : ℝ) + (cin : ℝ)))))
        (min (Real.sqrt (6 / ((cout : ℝ) + (cin : ℝ)))) (sampleI i idx))| ≤ _
    rw [add_comm (cout : ℝ) (cin : ℝ)]
    exact abs_clamp_le _ _ (Real.sqrt_nonneg _)
  · intro i idx hin
    have h := getD_range_map n
      (fun i => variable' (random_uniform
        (-(Real.sqrt (6 / ((cout : ℝ) + (cout : ℝ)))))
        (Real.sqrt (6 / ((cout : ℝ) + (cout : ℝ))))
        [cout, 4 * cout] (sampleR i) (some d)))
      i dummyTensor hin
    show |(((List.range n).map (fun i => variable' (random_uniform
        (-(Real.sqrt (6 / ((cout : ℝ) + (cout : ℝ)))))
        (Real.sqrt (6 / ((cout : ℝ) + (cout : ℝ))))
        [cout, 4 * cout] (sampleR i) (some d)))).getD
        i dummyTensor).data idx| ≤ Real.sqrt (6 / ((cout : ℝ) + (cout : ℝ)))
    rw [h]
    show |max (-(Real.sqrt (6 / ((cout : ℝ) + (cout : ℝ)))))
        (min (Real.sqrt (6 / ((cout : ℝ) + (cout : ℝ)))) (sampleR i idx))| ≤ _
    exact abs_clamp_le _ _ (Real.sqrt_nonneg _)

/-- C5 witness: the conclusion holds, with its per-layer bound obligations
discharged, for 2 input channels, 3 output channels, 2 layers, zero
samplers. -/
theorem lstm_create_variables_spec_witness :
    ((LSTM.create_variables ⟨2, 3, 2, true, true, "cpu"⟩ "cpu"
        (fun _ _ => 0) (fun _ _ => 0)).input.map Tensor.shape =
      (List.range 2).map (fun i => [if i = 0 then 2 else 3, 4 * 3])) ∧
    ((LSTM.create_variables ⟨2, 3, 2, true, true, "cpu"⟩ "cpu"
        (fun _ _ => 0) (fun _ _ => 0)).recurrent.map Tensor.shape =
      List.replicate 2 [3, 4 * 3]) ∧
    (∀ i idx, i < 2 →
      |(((LSTM.create_variables ⟨2, 3, 2, true, true, "cpu"⟩ "cpu"
          (fun _ _ => 0) (fun _ _ => 0)).input.getD i dummyTensor).data idx)| ≤
        Real.sqrt (6 / (((2 : Nat) : ℝ) + ((3 : Nat) : ℝ)))) ∧
    (∀ i idx, i < 2 →
      |(((LSTM.create_variables ⟨2, 3, 2, true, true, "cpu"⟩ "cpu"
          (fun _ _ => 0) (fun _ _ => 0)).recurrent.getD i dummyTensor).data idx)| ≤
        Real.sqrt (6 / (((3 : Nat) : ℝ) + ((3 : Nat) : ℝ)))) :=
  lstm_create_variables_spec 2 3 2 true true "cpu" "cpu"
    (fun _ _ => 0) (fun _ _ => 0)

/-- C3: output policy of `LSTM._forward` on an input of shape
`batch_shape ++ [T, input_channels]` (given the `ivy.lstm_update` shape
contract): with `return_sequence` false the output is truncated to the last
timestep and has shape `batch_shape ++ [output_channels]` instead of
`batch_shape ++ [T, output_channels]`; with `return_state` false only the
output tensor is returned, with no state tuple; otherwise the result carries
`(hidden_states_per_layer, cell_states_per_layer)`, the per-layer hidden
state being the last timestep of that layer's output sequence. -/
theorem lstm_forward_output_policy (upd : LSTMUpdate) (self : LSTM)
    (v : LSTMVars) (x : Tensor) (bs : List Nat) (t : Nat) (hs cs : List Tensor)
    (hupd : ∀ a b c d e : Tensor,
      ((upd a b c d e).1).shape = a.shape.dropLast ++ [self.output_channels])
    (hx : x.shape = bs ++ [t, self.input_channels])
    (h1 : hs.length = self.num_layers) (h2 : cs.length = self.num_layers)
    (h3 : self.num_layers ≤ v.input.length)
    (h4 : self.num_layers ≤ v.recurrent.length)
    (hn : 0 < self.num_layers) :
    ((LSTM.forward self upd v x (some (hs, cs))).out.shape =
      bs ++ (if self.return_sequence then [t, self.output_channels]
        else [self.output_channels])) ∧
    (self.return_state = false →
      LSTM.forward self upd v x (some (hs, cs)) =
        LSTMResult.output ((LSTM.forward self upd v x (some (hs, cs))).out)) ∧
    (self.return_state = true →
      (LSTM.forward self upd v x (some (hs, cs))).state =
        some ((List.range self.num_layers).map
            (fun i => lastTimestep (chainOutput upd x hs cs v.input v.recurrent (i + 1))),
          (List.range self.num_layers).map
            (fun i => chainCell upd x hs cs v.input v.recurrent i))) := by
  have hloop := forwardLoop_eq_chain upd self.num_layers x hs cs v.input
    v.recurrent h1 h2 h3 h4
  obtain ⟨m, hm⟩ : ∃ m, self.num_layers = m + 1 :=
    ⟨self.num_layers - 1, (Nat.succ_pred_eq_of_pos hn).symm⟩
  have hchain : (chainOutput upd x hs cs v.input v.recurrent
      self.num_layers).shape = bs ++ [t, self.output_channels] := by
    rw [hm, chainOutput_shape upd self.output_channels hupd x hs cs v.input
      v.recurrent m, hx, dropLast_append_two]
    simp
  have hlastshape : (lastTimestep (chainOutput upd x hs cs v.input v.recurrent
      self.num_layers)).shape = bs ++ [self.output_channels] := by
    show (chainOutput upd x hs cs v.input v.recurrent
        self.num_layers).shape.dropLast.dropLast ++ [_] = _
    rw [hchain, dropLast_append_two, List.dropLast_concat]
    simp [hchain]
  refine ⟨?_, ?_, ?_⟩
  · cases hrs : self.return_sequence <;> cases hst : self.return_state <;>
      simp [LSTM.forward, hrs, hst, hloop, LSTMResult.out, hchain, hlastshape]
  · intro hst
    cases hrs : self.return_sequence <;>
      simp [LSTM.forward, hst, hrs, LSTMResult.out]
  · intro hst
    simp [LSTM.forward, hst, hloop, LSTMResult.state]

/-- C3 witness: the hypotheses hold and the conclusion follows for the
concrete 2-layer LSTM with a shape-respecting update operation. -/
theorem lstm_forward_output_policy_witness :
    ((∀ a b c d e : Tensor, ((demoUpdShaped a b c d e).1).shape =
        a.shape.dropLast ++ [demoLSTM.output_channels]) ∧
     demoInput.shape = [2] ++ [5, demoLSTM.input_channels] ∧
     ([dummyTensor, dummyTensor] : List Tensor).length = demoLSTM.num_layers ∧
     ([dummyTensor, dummyTensor] : List Tensor).length = demoLSTM.num_layers ∧
     demoLSTM.num_layers ≤ demoVars.input.length ∧
     demoLSTM.num_layers ≤ demoVars.recurrent.length ∧
     0 < demoLSTM.num_layers) ∧
    (((LSTM.forward demoLSTM demoUpdShaped demoVars demoInput
        (some ([dummyTensor, dummyTensor], [dummyTensor, dummyTensor]))).out.shape =
      [2] ++ (if demoLSTM.return_sequence then [5, demoLSTM.output_channels]
        else [demoLSTM.output_channels])) ∧
     (demoLSTM.return_state = false →
       LSTM.forward demoLSTM demoUpdShaped demoVars demoInput
         (some ([dummyTensor, dummyTensor], [dummyTensor, dummyTensor])) =
        LSTMResult.output ((LSTM.forward demoLSTM demoUpdShaped demoVars
          demoInput (some ([dummyTensor, dummyTensor], [dummyTensor, dummyTensor]))).out)) ∧
     (demoLSTM.return_state = true →
       (LSTM.forward demoLSTM demoUpdShaped demoVars demoInput
         (some ([dummyTensor, dummyTensor], [dummyTensor, dummyTensor]))).state =
        some ((List.range demoLSTM.num_layers).map
            (fun i => lastTimestep (chainOutput demoUpdShaped demoInput
              [dummyTensor, dummyTensor] [dummyTensor, dummyTensor]
              demoVars.input demoVars.recurrent (i + 1))),
          (List.range demoLSTM.num_layers).map
            (fun i => chainCell demoUpdShaped demoInput
              [dummyTensor, dummyTensor] [dummyTensor, dummyTensor]
              demoVars.input demoVars.recurrent i)))) :=
  ⟨⟨fun _ _ _ _ _ => rfl, by decide, by decide, by decide, by decide,
    by decide, by decide⟩,
   lstm_forward_output_policy demoUpdShaped demoLSTM demoVars demoInput
     [2] 5 [dummyTensor, dummyTensor] [dummyTensor, dummyTensor]
     (fun _ _ _ _ _ => rfl) (by decide) (by decide) (by decide) (by decide)
     (by decide) (by decide)⟩

/-- C10: when `LSTM._forward` is given an initial state whose hidden and cell
lists have length k smaller than num_layers (with the variable container
holding num_layers weights per family), it fails nowhere: the zip-driven loop
processes exactly the first k layers — the result is the k-layer chain — and
the returned state lists have length k. -/
theorem lstm_forward_short_state (upd : LSTMUpdate) (self : LSTM)
    (v : LSTMVars) (x : Tensor) (hs cs : List Tensor) (k : Nat)
    (hv1 : v.input.length = self.num_layers)
    (hv2 : v.recurrent.length = self.num_layers)
    (hk : k < self.num_layers)
    (h1 : hs.length = k) (h2 : cs.length = k)
    (hret : self.return_state = true) :
    (LSTM.forwardLoop upd x hs cs v.input v.recurrent =
      (chainOutput upd x hs cs v.input v.recurrent k,
       (List.range k).map
         (fun i => lastTimestep (chainOutput upd x hs cs v.input v.recurrent (i + 1))),
       (List.range k).map (fun i => chainCell upd x hs cs v.input v.recurrent i))) ∧
    ((LSTM.forward self upd v x (some (hs, cs))).state =
      some ((List.range k).map
          (fun i => lastTimestep (chainOutput upd x hs cs v.input v.recurrent (i + 1))),
        (List.range k).map (fun i => chainCell upd x hs cs v.input v.recurrent i))) ∧
    (∀ hl cl, (LSTM.forward self upd v x (some (hs, cs))).state = some (hl, cl) →
      hl.length = k ∧ cl.length = k) := by
  have h3 : k ≤ v.input.length := by rw [hv1]; exact le_of_lt hk
  have h4 : k ≤ v.recurrent.length := by rw [hv2]; exact le_of_lt hk
  have hloop := forwardLoop_eq_chain upd k x hs cs v.input v.recurrent h1 h2 h3 h4
  have hstate : (LSTM.forward self upd v x (some (hs, cs))).state =
      some ((List.range k).map
          (fun i => lastTimestep (chainOutput upd x hs cs v.input v.recurrent (i + 1))),
        (List.range k).map (fun i => chainCell upd x hs cs v.input v.recurrent i)) := by
    simp [LSTM.forward, hret, hloop, LSTMResult.state]
  refine ⟨hloop, hstate, ?_⟩
  intro hl cl hcl
  rw [hstate] at hcl
  obtain ⟨rfl, rfl⟩ : hl = _ ∧ cl = _ := by
    injection hcl with h
    injection h with ha hb
    exact ⟨ha.symm, hb.symm⟩
  constructor <;> simp

/-- C10 witness: the hypotheses hold and the conclusion follows for the
concrete 2-layer LSTM given a single-layer initial state (k = 1 < 2). -/
theorem lstm_forward_short_state_witness :
    ((demoVars.input.length = demoLSTM.num_layers ∧
      demoVars.recurrent.length = demoLSTM.num_layers ∧
      1 < demoLSTM.num_layers ∧
      ([dummyTensor] : List Tensor).length = 1 ∧
      ([dummyTensor] : List Tensor).length = 1 ∧
      demoLSTM.return_state = true) ∧
    ((LSTM.forwardLoop demoUpd demoInput [dummyTensor] [dummyTensor]
        demoVars.input demoVars.recurrent =
      (chainOutput demoUpd demoInput [dummyTensor] [dummyTensor]
        demoVars.input demoVars.recurrent 1,
       (List.range 1).map
         (fun i => lastTimestep (chainOutput demoUpd demoInput [dummyTensor]
           [dummyTensor] demoVars.input demoVars.recurrent (i + 1))),
       (List.range 1).map (fun i => chainCell demoUpd demoInput [dummyTensor]
         [dummyTensor] demoVars.input demoVars.recurrent i))) ∧
     ((LSTM.forward demoLSTM demoUpd demoVars demoInput
        (some ([dummyTensor], [dummyTensor]))).state =
      some ((List.range 1).map
          (fun i => lastTimestep (chainOutput demoUpd demoInput [dummyTensor]
            [dummyTensor] demoVars.input demoVars.recurrent (i + 1))),
        (List.range 1).map (fun i => chainCell demoUpd demoInput [dummyTensor]
          [dummyTensor] demoVars.input demoVars.recurrent i))) ∧
     (∀ hl cl, (LSTM.forward demoLSTM demoUpd demoVars demoInput
        (some ([dummyTensor], [dummyTensor]))).state = some (hl, cl) →
       hl.length = 1 ∧ cl.length = 1))) :=
  ⟨⟨by decide, by decide, by decide, by decide, by decide, by decide⟩,
   lstm_forward_short_state demoUpd demoLSTM demoVars demoInput
     [dummyTensor] [dummyTensor] 1 (by decide) (by decide) (by decide)
     (by decide) (by decide) (by decide)⟩

end IvyLayers
